import Mathlib

/-!
Shallow embedding of `server/genome_analyzer.py` from the GET-Evidence
repository: the format sniffer `detect_format`, the normalization
generator `process_source`, and the job runner `genome_analyzer`,
together with theorems settling the specification's claims about them.

Lines of an input stream are modelled as Lean `String`s carrying their
trailing newline character, exactly as Python file iteration yields them.
String primitives are implemented over `String.data` (`List Char`) so
that every definition evaluates by kernel reduction.
-/

set_option maxHeartbeats 1000000

namespace GenomeAnalyzer

/-- Whitespace characters that Python `str.split()` (no separator) splits on. -/
def pyIsSpace (c : Char) : Bool :=
  c == ' ' || c == '\t' || c == '\n' || c == '\r' || c == '\x0b' || c == '\x0c'

/-- Prefix test on strings; models Python `re.match` against a literal pattern
and `str.startswith`. -/
def strStartsWith (s pre : String) : Bool :=
  pre.data.isPrefixOf s.data

/-- Substring occurrence on character lists (the pattern occurs starting at
some position). -/
def containsSub (pat : List Char) : List Char → Bool
  | [] => pat.isPrefixOf []
  | c :: cs => pat.isPrefixOf (c :: cs) || containsSub pat cs

/-- Substring occurrence on strings; models Python `re.search` against a
literal pattern. -/
def containsSubstr (s pat : String) : Bool :=
  containsSub pat.data s.data

/-- Split a character list on a separator character; models Python
`str.split(sep)` for a one-character separator (keeps empty fields). -/
def splitChar (sep : Char) : List Char → List (List Char)
  | [] => [[]]
  | c :: cs =>
    if c == sep then [] :: splitChar sep cs
    else
      match splitChar sep cs with
      | [] => [[c]]
      | g :: gs => (c :: g) :: gs

/-- Python `line.split('\t')`. -/
def splitTab (s : String) : List String :=
  (splitChar '\t' s.data).map (fun l => ⟨l⟩)

/-- Split a character list at every character satisfying `p`
(keeps empty fields). -/
def splitPred (p : Char → Bool) : List Char → List (List Char)
  | [] => [[]]
  | c :: cs =>
    if p c then [] :: splitPred p cs
    else
      match splitPred p cs with
      | [] => [[c]]
      | g :: gs => (c :: g) :: gs

/-- Python `line.split()` with no argument: split on whitespace runs,
discarding empty fields. -/
def pySplit (s : String) : List String :=
  ((splitPred pyIsSpace s.data).filter (fun g => !g.isEmpty)).map (fun l => ⟨l⟩)

/-- Python `line.rstrip('\n')`: drop every trailing newline character. -/
def rstripNl (s : String) : String :=
  ⟨(s.data.reverse.dropWhile (fun c => c == '\n')).reverse⟩

/-- Does the first character of `s` satisfy `p`?  Models Python
`re.match` with a single character class (for example `[0-9]`). -/
def firstIs (p : Char → Bool) (s : String) : Bool :=
  match s.data with
  | [] => false
  | c :: _ => p c

/-- Membership in the character class `[ACGT]`. -/
def isACGT (c : Char) : Bool :=
  c == 'A' || c == 'C' || c == 'G' || c == 'T'

/-- Models Python `re.match(r'[ACGT][ACGT]', s)`: the first two characters
are both in `[ACGT]`. -/
def firstTwoACGT (s : String) : Bool :=
  match s.data with
  | a :: b :: _ => isACGT a && isACGT b
  | _ => false

/-- The detected source format (`detect_format` return values). -/
inductive Format
  | GFF
  | CGIVAR
  | TWENTYTHREEANDME
  | UNKNOWN
deriving DecidableEq, Repr, BEq

/-- Models `re.match(r'#TYPE.*VAR-ANNOTATION', line)`: the line starts with
`#TYPE` and `VAR-ANNOTATION` occurs later in it (stream lines contain no
interior newline, so the dot-star is plain substring search). -/
def matchTypeVarAnnotation (line : String) : Bool :=
  strStartsWith line "#TYPE" && containsSub "VAR-ANNOTATION".data (line.data.drop 5)

/-- The `is_cgi_like` test of `detect_format` (genome_analyzer.py lines 71-74),
on the tab-split fields of a line. -/
def is_cgi_like (data : List String) : Bool :=
  strStartsWith (data.getD 3 "") "chr" &&
  firstIs Char.isDigit (data.getD 4 "") &&
  firstIs Char.isDigit (data.getD 5 "") &&
  (data.getD 6 "" == "no-call" || data.getD 6 "" == "ref")

/-- The `is_gff_like` test of `detect_format` (lines 75-77). -/
def is_gff_like (data : List String) : Bool :=
  firstIs Char.isDigit (data.getD 3 "") &&
  firstIs Char.isDigit (data.getD 4 "") &&
  data.getD 6 "" == "+"

/-- The `is_23andme_like` test of `detect_format` (lines 78-80). -/
def is_23andme_like (data : List String) : Bool :=
  firstIs Char.isDigit (data.getD 2 "") &&
  firstTwoACGT (data.getD 3 "") &&
  strStartsWith (data.getD 0 "") "rs"

/-- The `for i in range(100)` body-guessing loop of `detect_format`
(lines 62-97).  `fuel` is the number of remaining loop iterations, `line`
the line currently held, `rest` the not-yet-fetched stream.  A line with
fewer than 7 tab fields is skipped but still consumes an iteration;
exhaustion of the stream or of the budget yields `UNKNOWN`. -/
def detectLoop : Nat → String → List String → Format
  | 0, _, _ => Format.UNKNOWN
  | fuel + 1, line, rest =>
    let data := splitTab line
    if data.length < 7 then
      match rest with
      | [] => Format.UNKNOWN
      | l :: ls => detectLoop fuel l ls
    else if is_cgi_like data then Format.CGIVAR
    else if is_gff_like data then Format.GFF
    else if is_23andme_like data then Format.TWENTYTHREEANDME
    else
      match rest with
      | [] => Format.UNKNOWN
      | l :: ls => detectLoop fuel l ls

/-- The leading header-signature scan of `detect_format` (lines 40-60):
walk the leading comment lines, returning immediately on a per-format
signature; on the first non-comment line fall through to the body loop;
an exhausted stream is `UNKNOWN`. -/
def detectHeader : List String → Format
  | [] => Format.UNKNOWN
  | line :: rest =>
    if strStartsWith line "#" then
      if matchTypeVarAnnotation line then Format.CGIVAR
      else if strStartsWith line "##gff-version" then Format.GFF
      else if strStartsWith line "# This data file generated by 23andMe" then
        Format.TWENTYTHREEANDME
      else detectHeader rest
    else detectLoop 100 line rest

/-- `detect_format` (genome_analyzer.py lines 38-97) over the stream of
input lines. -/
def detect_format (lines : List String) : Format :=
  detectHeader lines

/-- The per-format header signature of a comment line, if any, with the
source's checking order (the three signature prefixes are mutually
exclusive). -/
def sigOf (line : String) : Option Format :=
  if matchTypeVarAnnotation line then some Format.CGIVAR
  else if strStartsWith line "##gff-version" then some Format.GFF
  else if strStartsWith line "# This data file generated by 23andMe" then
    some Format.TWENTYTHREEANDME
  else none

/-- The shape-predicate classification of a single body line: `none` when
the line has fewer than 7 tab fields or matches no predicate, otherwise
the format of the first matching predicate in the fixed priority order
CGIVAR, GFF, 23ANDME. -/
def shapeOf (line : String) : Option Format :=
  let data := splitTab line
  if data.length < 7 then none
  else if is_cgi_like data then some Format.CGIVAR
  else if is_gff_like data then some Format.GFF
  else if is_23andme_like data then some Format.TWENTYTHREEANDME
  else none

/-- Modelled from the spec: the two-phase reference sniffing algorithm of
claim C2.  Phase one scans the leading comment block for a per-format
header signature and returns the first one found, regardless of body
content; phase two examines at most 100 body lines, skipping those with
fewer than 7 tab fields, and returns the format of the first line
matching a shape predicate; otherwise `UNKNOWN`. -/
def detectFormatSpec (lines : List String) : Format :=
  let headerBlock := lines.takeWhile (fun l => strStartsWith l "#")
  let body := lines.dropWhile (fun l => strStartsWith l "#")
  match headerBlock.findSome? sigOf with
  | some fmt => fmt
  | none =>
    match (body.take 100).findSome? shapeOf with
    | some fmt => fmt
    | none => Format.UNKNOWN

/-- The decompression filter chosen by `process_source` for an input path
(the `cat`, `zcat` or `bzcat` command of lines 104-108). -/
inductive CatFilter
  | cat
  | zcat
  | bzcat
deriving DecidableEq, Repr, BEq

/-- The filter selection of `process_source` lines 104-108: start from
`cat`, switch to `zcat` when `re.search(r'\.gz', genome_in)` matches,
then to `bzcat` when `re.search(r'\.bz2', genome_in)` matches (a later
match overwrites an earlier one). -/
def catFilter (genome_in : String) : CatFilter :=
  let c := CatFilter.cat
  let c := if containsSubstr genome_in ".gz" then CatFilter.zcat else c
  let c := if containsSubstr genome_in ".bz2" then CatFilter.bzcat else c
  c

/-- The `b36_list` of genome_analyzer.py line 133. -/
def b36_list : List String := ["hg18", "36", "b36", "build36", "NCBI36"]

/-- The `b37_list` of line 134. -/
def b37_list : List String := ["hg19", "37", "b37", "build37", "GRCh37"]

/-- The handling of one header line by the loop body of `process_source`
(lines 139-148), given the current `build` value: a line starting with
`##genome-build` is whitespace-split; fewer than two tokens raises
`no genome build specified?`; a token in `b36_list` or `b37_list` sets
the build; any other token raises `genome build uninterpretable`; a
header line not starting with `##genome-build` leaves the build as is. -/
def applyBuildLine (line build : String) : Except String String :=
  if strStartsWith line "##genome-build" then
    let gbdata := pySplit line
    if gbdata.length < 2 then Except.error "no genome build specified?"
    else if gbdata.getD 1 "" ∈ b36_list then Except.ok "b36"
    else if gbdata.getD 1 "" ∈ b37_list then Except.ok "b37"
    else Except.error "genome build uninterpretable"
  else Except.ok build

/-- Observable outcome of the header-grabbing and sort-feeding loop of
`process_source` (lines 126-153): the final `genome_build` value, the
`header` list, the lines written to the sort process standard input
(recorded after their `rstrip('\n')`; the re-added `'\n'` terminator is
implicit), and the exception message when the loop raised. -/
structure ProcOut where
  build : String
  header : List String
  sortInput : List String
  error : Option String
deriving DecidableEq, Repr

/-- The `for line in gff_input` loop of `process_source` (lines 135-152)
with Python's local state made explicit: `headerDone`, `header` and
`build` mirror the locals; `sortIn` accumulates writes to the sort
process.  Note the source's `else: header_done = True` branch (lines
149-150) neither stores nor writes the first non-comment line, so that
line is dropped.  A raised exception stops the loop with the state
reached so far. -/
def processGo : List String → Bool → List String → String → List String → ProcOut
  | [], _, header, build, sortIn => ⟨build, header, sortIn, none⟩
  | line :: rest, headerDone, header, build, sortIn =>
    if headerDone then
      processGo rest true header build (sortIn ++ [rstripNl line])
    else if strStartsWith line "#" then
      match applyBuildLine line build with
      | Except.error e => ⟨build, header ++ [line], sortIn, some e⟩
      | Except.ok b => processGo rest false (header ++ [line]) b sortIn
    else
      processGo rest true header build sortIn

/-- The header/sort loop of `process_source` run from its initial state
(`header_done = False`, empty header, default `genome_build = "b36"`). -/
def processLines (lines : List String) : ProcOut :=
  processGo lines false [] "b36" []

/-- GNU sort field-4 numeric key: skip leading blanks, then an optional
minus sign and leading digits (models `sort`'s `-n` integer comparison
for the integer positions the pipeline feeds it). -/
def digitsVal : List Char → Nat → Nat
  | [], acc => acc
  | c :: cs, acc =>
    if c.isDigit then digitsVal cs (acc * 10 + (c.toNat - 48)) else acc

/-- Numeric value of a sort key field under `--key=4n`. -/
def numericVal (s : String) : Int :=
  let l := s.data.dropWhile (fun c => c == ' ' || c == '\t')
  match l with
  | '-' :: rest => - Int.ofNat (digitsVal rest 0)
  | _ => Int.ofNat (digitsVal l 0)

/-- Strict lexicographic order on character lists by code point (the byte
order GNU sort uses on ASCII data). -/
def lexLt : List Char → List Char → Bool
  | [], [] => false
  | [], _ :: _ => true
  | _ :: _, [] => false
  | a :: as1, b :: bs =>
    if a.val < b.val then true
    else if b.val < a.val then false
    else lexLt as1 bs

/-- The comparison of the external invocation
`sort --buffer-size=20% --key=1,1 --key=4n,4` (line 129): field 1
lexicographically, then field 4 numerically, then GNU sort's last-resort
whole-line comparison. -/
def sortKeyLE (a b : String) : Bool :=
  let fa := splitTab a
  let fb := splitTab b
  let k1a := (fa.getD 0 "").data
  let k1b := (fb.getD 0 "").data
  if lexLt k1a k1b then true
  else if lexLt k1b k1a then false
  else
    let n4a := numericVal (fa.getD 3 "")
    let n4b := numericVal (fb.getD 3 "")
    if n4a < n4b then true
    else if n4b < n4a then false
    else !lexLt b.data a.data

/-- Insert a line into an already sorted list, before the first element it
compares less-or-equal to. -/
def insertSorted (le : String → String → Bool) (x : String) : List String → List String
  | [] => [x]
  | y :: ys => if le x y then x :: y :: ys else y :: insertSorted le x ys

/-- Modelled behaviour of the external `sort` process of line 129: a total
sort of its input lines under `sortKeyLE` (insertion sort; since the
last-resort comparison makes the order total and antisymmetric on
distinct lines, any correct implementation of the utility produces this
output). -/
def unixSort (lines : List String) : List String :=
  lines.foldr (insertSorted sortKeyLE) []

/-- Observable run of the `process_source` generator (lines 99-160):
the chosen decompression filter, the detected format, which converter
collaborator was applied (if any), the error lines printed, the lines
written to the external sort process, the values the generator yields,
and the exception message when it raised instead. -/
structure PSRun where
  filter : CatFilter
  detected : Format
  converterUsed : Option Format
  log : List String
  sortInput : List String
  yielded : List String
  error : Option String
deriving DecidableEq, Repr

/-- `process_source` (genome_analyzer.py lines 99-160).  `convertCgivar`
and `convert23andme` are the external converter collaborators
(`cgivar_to_gff.convert`, `gff_from_23andme.convert`); `readFile f`
is the line stream produced by running the selected `cat`/`zcat`/`bzcat`
command on `genome_in` (the physical file is read twice, with the same
filter: once for sniffing, once for processing).  In the `UNKNOWN`
branch the source prints an error and then reaches `for line in
gff_input` with `gff_input` never assigned, so the generator raises a
`NameError` on first use: nothing is converted, nothing is written to
the sort process, nothing is yielded.  All raises happen before the
first `yield`, so a raising run yields nothing. -/
def process_source (convertCgivar convert23andme : List String → List String)
    (genome_in : String) (readFile : CatFilter → List String) : PSRun :=
  let filt := catFilter genome_in
  match detect_format (readFile filt) with
  | Format.UNKNOWN =>
    { filter := filt, detected := Format.UNKNOWN, converterUsed := none,
      log := ["ERROR: genome file format not recognized"],
      sortInput := [], yielded := [],
      error := some "NameError: gff_input is not defined" }
  | in_type =>
    let gff_input :=
      match in_type with
      | Format.CGIVAR => convertCgivar (readFile filt)
      | Format.TWENTYTHREEANDME => convert23andme (readFile filt)
      | _ => readFile filt
    let conv : Option Format :=
      match in_type with
      | Format.CGIVAR => some Format.CGIVAR
      | Format.TWENTYTHREEANDME => some Format.TWENTYTHREEANDME
      | _ => none
    let po := processLines gff_input
    match po.error with
    | some e =>
      { filter := filt, detected := in_type, converterUsed := conv,
        log := [], sortInput := po.sortInput, yielded := [], error := some e }
    | none =>
      { filter := filt, detected := in_type, converterUsed := conv,
        log := [], sortInput := po.sortInput,
        yielded := po.build ::
          (po.header.map rstripNl ++ (unixSort po.sortInput).map rstripNl),
        error := none }

/-- Observable events of one `genome_analyzer` run (lines 162-283), in
program order.  File-name arguments are the artifact base names inside
the output workspace. -/
inductive JEv
  | mkdirOutputDirIfAbsent
  | openLockAppend
  | printLockedQuit
  | truncateLock
  | redirectStdToLock
  | statusLog (s : String)
  | openFinalWrite (name : String)
  | openTmpWrite (name : String)
  | writeArtifactData (name : String)
  | closeArtifact (name : String)
  | mvTmpToFinal (name : String)
  | renameLockToLog
  | closeLock
  | raiseError (msg : String)
deriving DecidableEq, Repr, BEq

/-- Event trace of `genome_analyzer(genotype_file)` (lines 162-283).

`lockedByOther` is whether the non-blocking `flock` on the workspace
lock file fails because another run holds it; `sourceBuild` is the
outcome of `process_source(...).next()` (the build string it yields, or
the exception it raises); `stageChainOk` is whether draining the
generator chain of external stages succeeds.

Program order: attempt `os.mkdir` on the output directory (a no-op when
it exists); `open(lockfile, "a+")` (creates the file only when absent;
never truncates); on a held lock print and `return` immediately.
Otherwise truncate the lock file, redirect stdout/stderr into it, log
the first status record (the source concatenates two adjacent string
literals without a space, hence `sortinginput`), run `process_source`,
dispatch on the build (any value other than `b36`/`b37` raises), log the
second status record, open the compressed output `ns.gff.gz` under its
final name (`gzip.open`, line 268), let the curated-evidence stage open
`get-evidence.json.tmp` and the coverage stage open
`missing_coding.json` (final name) as the stream drains, drain, close,
`mv` the temporary curated-evidence file onto its final name, write
`metadata.json` under its final name, log the final status record, and
only then rename the lock file to the permanent log. -/
def genome_analyzer (lockedByOther : Bool) (sourceBuild : Except String String)
    (stageChainOk : Bool) : List JEv :=
  [JEv.mkdirOutputDirIfAbsent, JEv.openLockAppend] ++
  (if lockedByOther then [JEv.printLockedQuit]
   else
    [JEv.truncateLock, JEv.redirectStdToLock,
     JEv.statusLog "#status 0/100 calling process_source to process and sortinginput file"] ++
    match sourceBuild with
    | Except.error e => [JEv.raiseError e]
    | Except.ok b =>
      if b == "b36" || b == "b37" then
        [JEv.statusLog "#status 4 processing genome data (get reference alleles, dbSNP IDs, nonsynonymous changes, etc.)",
         JEv.openFinalWrite "ns.gff.gz",
         JEv.openTmpWrite "get-evidence.json",
         JEv.openFinalWrite "missing_coding.json"] ++
        (if stageChainOk then
          [JEv.writeArtifactData "ns.gff.gz",
           JEv.closeArtifact "ns.gff.gz",
           JEv.mvTmpToFinal "get-evidence.json",
           JEv.openFinalWrite "metadata.json",
           JEv.writeArtifactData "metadata.json",
           JEv.closeArtifact "metadata.json",
           JEv.statusLog "#status 100 finished",
           JEv.renameLockToLog,
           JEv.closeLock]
         else [JEv.raiseError "upstream stage failure"])
      else [JEv.raiseError "genome build data is invalid"])

/-- The full event trace of a successful `genome_analyzer` run. -/
def successTrace : List JEv :=
  [JEv.mkdirOutputDirIfAbsent, JEv.openLockAppend,
   JEv.truncateLock, JEv.redirectStdToLock,
   JEv.statusLog "#status 0/100 calling process_source to process and sortinginput file",
   JEv.statusLog "#status 4 processing genome data (get reference alleles, dbSNP IDs, nonsynonymous changes, etc.)",
   JEv.openFinalWrite "ns.gff.gz",
   JEv.openTmpWrite "get-evidence.json",
   JEv.openFinalWrite "missing_coding.json",
   JEv.writeArtifactData "ns.gff.gz",
   JEv.closeArtifact "ns.gff.gz",
   JEv.mvTmpToFinal "get-evidence.json",
   JEv.openFinalWrite "metadata.json",
   JEv.writeArtifactData "metadata.json",
   JEv.closeArtifact "metadata.json",
   JEv.statusLog "#status 100 finished",
   JEv.renameLockToLog,
   JEv.closeLock]

/-- Whether every temp-then-rename publication in a trace targets the
curated-evidence artifact. -/
def mvOnlyGetev (e : JEv) : Bool :=
  match e with
  | JEv.mvTmpToFinal n => n == "get-evidence.json"
  | _ => true

theorem detectLoop_eq (fuel : Nat) :
    ∀ (line : String) (rest : List String),
      detectLoop fuel line rest =
        (((line :: rest).take fuel).findSome? shapeOf).getD Format.UNKNOWN := by
  induction fuel with
  | zero => intro line rest; simp [detectLoop]
  | succ n ih =>
    intro line rest
    by_cases h7 : (splitTab line).length < 7
    · have hs : shapeOf line = none := by simp [shapeOf, h7]
      cases rest with
      | nil => simp [detectLoop, h7, hs]
      | cons l ls => simp [detectLoop, h7, hs, ih l ls]
    · by_cases hc : is_cgi_like (splitTab line) = true
      · have hs : shapeOf line = some Format.CGIVAR := by simp [shapeOf, h7, hc]
        simp [detectLoop, h7, hc, hs]
      · by_cases hg : is_gff_like (splitTab line) = true
        · have hs : shapeOf line = some Format.GFF := by simp [shapeOf, h7, hc, hg]
          simp [detectLoop, h7, hc, hg, hs]
        · by_cases h23 : is_23andme_like (splitTab line) = true
          · have hs : shapeOf line = some Format.TWENTYTHREEANDME := by
              simp [shapeOf, h7, hc, hg, h23]
            simp [detectLoop, h7, hc, hg, h23, hs]
          · have hs : shapeOf line = none := by simp [shapeOf, h7, hc, hg, h23]
            cases rest with
            | nil => simp [detectLoop, h7, hc, hg, h23, hs]
            | cons l ls => simp [detectLoop, h7, hc, hg, h23, hs, ih l ls]

theorem detectHeader_eq : ∀ lines : List String, detectHeader lines = detectFormatSpec lines := by
  intro lines
  induction lines with
  | nil => rfl
  | cons line rest ih =>
    by_cases hH : strStartsWith line "#" = true
    · by_cases h1 : matchTypeVarAnnotation line = true
      · simp [detectHeader, detectFormatSpec, hH, h1, sigOf]
      · by_cases h2 : strStartsWith line "##gff-version" = true
        · simp [detectHeader, detectFormatSpec, hH, h1, h2, sigOf]
        · by_cases h3 : strStartsWith line "# This data file generated by 23andMe" = true
          · simp [detectHeader, detectFormatSpec, hH, h1, h2, h3, sigOf]
          · have hsig : sigOf line = none := by simp [sigOf, h1, h2, h3]
            simp only [detectFormatSpec] at ih ⊢
            simp [detectHeader, hH, h1, h2, h3, hsig, ih]
    · simp only [detectHeader, detectFormatSpec]
      simp only [List.takeWhile_cons, List.dropWhile_cons, hH]
      simp [hH, detectLoop_eq 100 line rest]
      cases hfs : List.findSome? shapeOf (line :: List.take 99 rest) <;> rfl

theorem go_data (ds : List String) :
    ∀ (hdr : List String) (b : String) (si : List String),
      processGo ds true hdr b si = ⟨b, hdr, si ++ ds.map rstripNl, none⟩ := by
  induction ds with
  | nil => intro hdr b si; simp [processGo]
  | cons d ds ih => intro hdr b si; simp [processGo, ih]

theorem go_hdr_append :
    ∀ xs : List String, (∀ l ∈ xs, strStartsWith l "#" = true) →
    ∀ (ys hdr : List String) (b : String) (si : List String),
      processGo (xs ++ ys) false hdr b si =
        if (processGo xs false hdr b si).error = none then
          processGo ys false (processGo xs false hdr b si).header
            (processGo xs false hdr b si).build si
        else processGo xs false hdr b si := by
  intro xs
  induction xs with
  | nil => intro _ ys hdr b si; simp [processGo]
  | cons x xs ih =>
    intro hxs ys hdr b si
    have hx : strStartsWith x "#" = true := hxs x (by simp)
    cases hab : applyBuildLine x b with
    | error e => simp [processGo, hx, hab]
    | ok b2 =>
      simp only [List.cons_append, processGo, hx, hab, Bool.false_eq_true, if_false, if_true]
      exact ih (fun l hl => hxs l (List.mem_cons_of_mem _ hl)) ys (hdr ++ [x]) b2 si

theorem go_hdr_nobuild :
    ∀ xs : List String,
      (∀ l ∈ xs, strStartsWith l "#" = true ∧ strStartsWith l "##genome-build" = false) →
      ∀ (ys hdr : List String) (b : String) (si : List String),
        processGo (xs ++ ys) false hdr b si = processGo ys false (hdr ++ xs) b si := by
  intro xs
  induction xs with
  | nil => intro _ ys hdr b si; simp
  | cons x xs ih =>
    intro h ys hdr b si
    obtain ⟨hx1, hx2⟩ := h x (by simp)
    have hab : applyBuildLine x b = Except.ok b := by simp [applyBuildLine, hx2]
    simp only [List.cons_append, processGo, hx1, hab, Bool.false_eq_true, if_false, if_true]
    have hmain := ih (fun l hl => h l (by simp [hl])) ys (hdr ++ [x]) b si
    simpa using hmain

/-- Claim C2: `detect_format` conforms to the two-phase reference
algorithm: a per-format header signature in the leading comment block
decides the result regardless of body content; otherwise up to 100
subsequent lines are examined, lines with fewer than 7 tab-separated
fields are skipped, and the first line matching a shape predicate
decides, with fixed priority CGIVAR over GFF over 23ANDME; if no line
matches within the budget or the stream ends, the result is UNKNOWN. -/
theorem detect_format_two_phase :
    ∀ lines : List String, detect_format lines = detectFormatSpec lines :=
  detectHeader_eq

/-- Claim C4: for every header line beginning with the build-declaration
keyword `##genome-build`, `process_source` maps the token `hg18`, `36`,
`b36`, `build36` or `NCBI36` to build `b36`, and `hg19`, `37`, `b37`,
`build37` or `GRCh37` to build `b37`; for every other token, including a
declaration line with no token at all, it raises an exception. -/
theorem build_token_mapping (line build t : String)
    (hl : strStartsWith line "##genome-build" = true) :
    ((pySplit line).length < 2 → ∃ e, applyBuildLine line build = Except.error e) ∧
    ((pySplit line).getD 1 "" = t → ¬ (pySplit line).length < 2 →
      (t ∈ b36_list → applyBuildLine line build = Except.ok "b36") ∧
      (t ∈ b37_list → applyBuildLine line build = Except.ok "b37") ∧
      (t ∉ b36_list → t ∉ b37_list →
        ∃ e, applyBuildLine line build = Except.error e)) := by
  constructor
  · intro hlen
    exact ⟨"no genome build specified?", by simp [applyBuildLine, hl, hlen]⟩
  · intro ht hlen
    refine ⟨?_, ?_, ?_⟩
    · intro h36
      fin_cases h36 <;> simp_all [applyBuildLine, b36_list, b37_list]
    · intro h37
      fin_cases h37 <;> simp_all [applyBuildLine, b36_list, b37_list]
    · intro h36 h37
      refine ⟨"genome build uninterpretable", ?_⟩
      simp only [applyBuildLine, hl, if_true]
      rw [if_neg hlen, ht, if_neg h36, if_neg h37]

/-- Witness for `build_token_mapping` at the concrete header line
`##genome-build hg19`. -/
theorem build_token_mapping_witness :
    applyBuildLine "##genome-build hg19" "b36" = Except.ok "b37" :=
  ((build_token_mapping "##genome-build hg19" "b36" "hg19" (by decide)).2
    (by decide) (by decide)).2.1 (by decide)

/-- Input stream for the claim C3 counterexample: a recognized GFF header
with no genome-build declaration. -/
def c3Input : List String :=
  ["##gff-version 3\n",
   "chr1\ta\tb\t5\tc\td\te\tf\tg\n",
   "chr1\ta\tb\t7\tc\td\te\tf\tg\n"]

/-- Counterexample to claim C3 as stated: on an input whose header block
contains no genome-build declaration at all, `process_source` raises no
error and silently yields the defaulted build value `b36`. -/
theorem missing_build_defaults_counterexample :
    (process_source id id "genome.gff" (fun _ => c3Input)).error = none ∧
    (process_source id id "genome.gff" (fun _ => c3Input)).yielded.head? =
      some "b36" := by decide

/-- Claim C3 (amended): when the leading header block contains no line
beginning with `##genome-build`, the normalization loop of
`process_source` raises no error and yields the silently defaulted build
value `b36`; a fatal error is raised only when a declaration line is
present with a missing or unrecognized token. -/
theorem missing_build_yields_default_b36 (lines : List String)
    (h : ∀ l ∈ lines.takeWhile (fun s => strStartsWith s "#"),
        strStartsWith l "##genome-build" = false) :
    (processLines lines).error = none ∧ (processLines lines).build = "b36" := by
  suffices h2 : ∀ (ls hdr si : List String),
      (∀ l ∈ ls.takeWhile (fun s => strStartsWith s "#"),
        strStartsWith l "##genome-build" = false) →
      (processGo ls false hdr "b36" si).error = none ∧
      (processGo ls false hdr "b36" si).build = "b36" by
    exact h2 lines [] [] h
  intro ls
  induction ls with
  | nil => intro hdr si _; exact ⟨rfl, rfl⟩
  | cons l ls ih =>
    intro hdr si hno
    by_cases hl : strStartsWith l "#" = true
    · have hnb : strStartsWith l "##genome-build" = false := by
        apply hno
        simp [List.takeWhile_cons, hl]
      have hab : applyBuildLine l "b36" = Except.ok "b36" := by
        simp [applyBuildLine, hnb]
      simp only [processGo, hl, hab, Bool.false_eq_true, if_false, if_true]
      exact ih (hdr ++ [l]) si
        (fun l2 hl2 => hno l2 (by simp [List.takeWhile_cons, hl, hl2]))
    · simp only [processGo, hl, Bool.false_eq_true, if_false]
      rw [go_data]
      exact ⟨rfl, rfl⟩

/-- Witness for `missing_build_yields_default_b36` at a concrete input
with a comment header and no build declaration. -/
theorem missing_build_yields_default_b36_witness :
    (processLines ["# header\n", "chr1\tdata\n"]).error = none ∧
    (processLines ["# header\n", "chr1\tdata\n"]).build = "b36" :=
  missing_build_yields_default_b36 ["# header\n", "chr1\tdata\n"] (by decide)

/-- Claim C10: the yielded genome build is determined solely by the
leading comment block.  Part one: for a stream made of a leading comment
block, a first non-comment line and a remainder, the result's build and
header equal those computed from the comment block alone, and every
remainder line, genome-build lines included, is written to the sort
process.  Part two: when the leading comment block ends with a
recognized build declaration followed only by non-declaration comment
lines, that last declaration determines the yielded build. -/
theorem build_from_header_block_only :
    (∀ (hdr : List String) (d : String) (rest : List String),
      (∀ l ∈ hdr, strStartsWith l "#" = true) →
      strStartsWith d "#" = false →
      (processLines hdr).error = none →
      processLines (hdr ++ d :: rest) =
        ⟨(processLines hdr).build, (processLines hdr).header,
          rest.map rstripNl, none⟩) ∧
    (∀ (h1 : List String) (bl : String) (h2 : List String) (d : String)
        (rest : List String) (b : String),
      (∀ l ∈ h1, strStartsWith l "#" = true) →
      strStartsWith bl "#" = true →
      (∀ b0 : String, applyBuildLine bl b0 = Except.ok b) →
      (∀ l ∈ h2, strStartsWith l "#" = true ∧
        strStartsWith l "##genome-build" = false) →
      strStartsWith d "#" = false →
      (processLines h1).error = none →
      (processLines (h1 ++ bl :: (h2 ++ d :: rest))).build = b) := by
  constructor
  · intro hdr d rest hhdr hd herr
    show processGo (hdr ++ d :: rest) false [] "b36" [] = _
    rw [go_hdr_append hdr hhdr (d :: rest) [] "b36" []]
    have herr2 : (processGo hdr false [] "b36" []).error = none := herr
    rw [if_pos herr2]
    simp only [processGo, hd, Bool.false_eq_true, if_false]
    rw [go_data]
    rfl
  · intro h1 bl h2 d rest b hh1 hbl hab hh2 hd herr
    show (processGo (h1 ++ bl :: (h2 ++ d :: rest)) false [] "b36" []).build = b
    rw [go_hdr_append h1 hh1 (bl :: (h2 ++ d :: rest)) [] "b36" []]
    have herr2 : (processGo h1 false [] "b36" []).error = none := herr
    rw [if_pos herr2]
    simp only [processGo, hbl, hab, Bool.false_eq_true, if_false, if_true]
    rw [go_hdr_nobuild h2 hh2 (d :: rest) _ b []]
    simp only [processGo, hd, Bool.false_eq_true, if_false]
    rw [go_data]

/-- Witness for `build_from_header_block_only`: a concrete stream whose
remainder contains a `##genome-build hg19` line that is written to the
sort input and does not override the header's `hg18` declaration. -/
theorem build_from_header_block_only_witness :
    processLines (["# c\n"] ++ "chr1\tx\n" :: ["##genome-build hg19\n"]) =
      ⟨(processLines ["# c\n"]).build, (processLines ["# c\n"]).header,
        ["##genome-build hg19"], none⟩ ∧
    (processLines (["# c\n"] ++ "##genome-build hg18\n" ::
        (["# d\n"] ++ "chr1\tx\n" :: ["##genome-build hg19\n"]))).build = "b36" :=
  ⟨build_from_header_block_only.1 ["# c\n"] "chr1\tx\n" ["##genome-build hg19\n"]
      (by decide) (by decide) (by decide),
   build_from_header_block_only.2 ["# c\n"] "##genome-build hg18\n" ["# d\n"]
      "chr1\tx\n" ["##genome-build hg19\n"] "b36"
      (by decide) (by decide) (fun b0 => rfl) (by decide) (by decide) (by decide)⟩

/-- Input stream for the claim C1 evaluation: a GFF header followed by
three data lines, the first of which has start position 100. -/
def c1Input : List String :=
  ["##gff-version 3\n",
   "##genome-build hg19\n",
   "chr1\ta\tSNP\t100\t100\t.\t+\t.\tA\n",
   "chr1\ta\tSNP\t50\t50\t.\t+\t.\tB\n",
   "chr1\ta\tSNP\t70\t70\t.\t+\t.\tC\n"]

/-- Claim C1 (evaluation at the failing input): the output of
`process_source` is the build value, then the header lines, then the
sorted remaining data lines with trailing newlines stripped — but the
first non-header data line (start 100) is dropped: the source's
`else: header_done = True` branch (lines 149-150) neither buffers nor
writes the line that ends the header block, contradicting the comment
`Pipe the rest to UNIX sort` (line 126), so it never reaches the sort
process and never appears in the yielded output. -/
theorem process_source_drops_first_data_line :
    (process_source id id "genome.gff" (fun _ => c1Input)).error = none ∧
    (process_source id id "genome.gff" (fun _ => c1Input)).yielded =
      ["b37", "##gff-version 3", "##genome-build hg19",
       "chr1\ta\tSNP\t50\t50\t.\t+\t.\tB",
       "chr1\ta\tSNP\t70\t70\t.\t+\t.\tC"] ∧
    ((process_source id id "genome.gff" (fun _ => c1Input)).sortInput.contains
      "chr1\ta\tSNP\t100\t100\t.\t+\t.\tA") = false ∧
    ((process_source id id "genome.gff" (fun _ => c1Input)).yielded.contains
      "chr1\ta\tSNP\t100\t100\t.\t+\t.\tA") = false := by decide

/-- Claim C8: for every input whose format detection returns `UNKNOWN`,
`process_source` logs an error and does not proceed to sorting: no line
is ever written to the external sort process, no format converter is
applied, nothing is yielded, and the run aborts with an exception. -/
theorem unknown_format_aborts
    (convertCgivar convert23andme : List String → List String)
    (genome_in : String) (readFile : CatFilter → List String)
    (h : detect_format (readFile (catFilter genome_in)) = Format.UNKNOWN) :
    (process_source convertCgivar convert23andme genome_in readFile).log =
      ["ERROR: genome file format not recognized"] ∧
    (process_source convertCgivar convert23andme genome_in readFile).sortInput = [] ∧
    (process_source convertCgivar convert23andme genome_in readFile).converterUsed = none ∧
    (process_source convertCgivar convert23andme genome_in readFile).yielded = [] ∧
    (process_source convertCgivar convert23andme genome_in readFile).error =
      some "NameError: gff_input is not defined" := by
  simp [process_source, h]

/-- Witness for `unknown_format_aborts` at the empty input stream, whose
detection result is `UNKNOWN`. -/
theorem unknown_format_aborts_witness :
    (process_source id id "data.txt" (fun _ => [])).log =
      ["ERROR: genome file format not recognized"] ∧
    (process_source id id "data.txt" (fun _ => [])).sortInput = [] ∧
    (process_source id id "data.txt" (fun _ => [])).converterUsed = none ∧
    (process_source id id "data.txt" (fun _ => [])).yielded = [] ∧
    (process_source id id "data.txt" (fun _ => [])).error =
      some "NameError: gff_input is not defined" :=
  unknown_format_aborts id id "data.txt" (fun _ => []) rfl

/-- Counterexample to claim C9 as stated: the filter selection does not
depend only on the file-name suffix.  The names `a.txt` and `a.gz.txt`
share the suffix `.txt` and neither ends in `.gz` or `.bz2`, yet the
first is read as plain text while the second selects gzip decompression,
because the source matches `re.search(r'\.gz', ...)` anywhere in the
name. -/
theorem filter_suffix_counterexample :
    catFilter "a.txt" = CatFilter.cat ∧
    catFilter "a.gz.txt" = CatFilter.zcat := by decide

/-- Claim C9 (amended): `process_source` selects the decompression filter
by substring occurrence, not suffix: a name containing `.bz2` anywhere
selects bzip2 (the `.bz2` test runs last and overrides), otherwise a
name containing `.gz` anywhere selects gzip, otherwise the name is read
as plain text; and the same filter is used for both the sniffing read
and the processing read. -/
theorem filter_substring_selection (genome_in : String) :
    (containsSubstr genome_in ".bz2" = true →
      catFilter genome_in = CatFilter.bzcat) ∧
    (containsSubstr genome_in ".bz2" = false →
      containsSubstr genome_in ".gz" = true →
      catFilter genome_in = CatFilter.zcat) ∧
    (containsSubstr genome_in ".bz2" = false →
      containsSubstr genome_in ".gz" = false →
      catFilter genome_in = CatFilter.cat) ∧
    (∀ (convertCgivar convert23andme : List String → List String)
        (readFile : CatFilter → List String),
      (process_source convertCgivar convert23andme genome_in readFile).filter =
        catFilter genome_in ∧
      (process_source convertCgivar convert23andme genome_in readFile).detected =
        detect_format (readFile (catFilter genome_in))) := by
  refine ⟨?_, ?_, ?_, ?_⟩
  · intro h2; simp [catFilter, h2]
  · intro h2 h1; simp [catFilter, h1, h2]
  · intro h2 h1; simp [catFilter, h1, h2]
  · intro convertCgivar convert23andme readFile
    cases hdf : detect_format (readFile (catFilter genome_in)) with
    | UNKNOWN => simp [process_source, hdf]
    | GFF =>
      cases herr : (processLines (readFile (catFilter genome_in))).error <;>
        simp [process_source, hdf, herr]
    | CGIVAR =>
      cases herr : (processLines (convertCgivar (readFile (catFilter genome_in)))).error <;>
        simp [process_source, hdf, herr]
    | TWENTYTHREEANDME =>
      cases herr : (processLines (convert23andme (readFile (catFilter genome_in)))).error <;>
        simp [process_source, hdf, herr]

/-- Witness for `filter_substring_selection` at concrete names with a
`.bz2` and a `.gz` occurrence. -/
theorem filter_substring_selection_witness :
    catFilter "y.bz2" = CatFilter.bzcat ∧
    catFilter "x.gz" = CatFilter.zcat ∧
    (process_source id id "x.gz" (fun _ => [])).filter = catFilter "x.gz" :=
  ⟨(filter_substring_selection "y.bz2").1 (by decide),
   (filter_substring_selection "x.gz").2.1 (by decide) (by decide),
   ((filter_substring_selection "x.gz").2.2.2 id id (fun _ => [])).1⟩

/-- Claim C5: when the workspace lock is already held by another run, the
job runner returns immediately without raising: its whole event trace is
the idempotent mkdir attempt, the append-mode open of the existing lock
file (which does not truncate it), and the quitting message — no
truncation, no log or progress record, and no artifact creation or
modification, whatever the pipeline parameters would have been. -/
theorem locked_workspace_noop (sourceBuild : Except String String)
    (stageChainOk : Bool) :
    genome_analyzer true sourceBuild stageChainOk =
      [JEv.mkdirOutputDirIfAbsent, JEv.openLockAppend, JEv.printLockedQuit] := rfl

/-- Claim C6: the job runner renames the workspace lock file to the
permanent completion log exactly when the run completes successfully
(lock free, a recognized build yielded, and the stage-chain drain
succeeding); the successful trace places the rename immediately after
the final `#status 100 finished` progress record, and on any fatal error
the rename event never occurs. -/
theorem rename_lock_iff_success (lockedByOther : Bool)
    (sourceBuild : Except String String) (stageChainOk : Bool) :
    (JEv.renameLockToLog ∈ genome_analyzer lockedByOther sourceBuild stageChainOk ↔
      lockedByOther = false ∧
        (sourceBuild = Except.ok "b36" ∨ sourceBuild = Except.ok "b37") ∧
        stageChainOk = true) ∧
    genome_analyzer false (Except.ok "b36") true = successTrace ∧
    genome_analyzer false (Except.ok "b37") true = successTrace ∧
    successTrace.indexOf (JEv.statusLog "#status 100 finished") + 1 =
      successTrace.indexOf JEv.renameLockToLog := by
  refine ⟨?_, rfl, rfl, by decide⟩
  cases lockedByOther with
  | true => simp [genome_analyzer]
  | false =>
    cases sourceBuild with
    | error e => simp [genome_analyzer]
    | ok b =>
      by_cases hb : b = "b36"
      · cases stageChainOk <;> simp [genome_analyzer, hb]
      · by_cases hb2 : b = "b37"
        · cases stageChainOk <;> simp [genome_analyzer, hb, hb2]
        · simp [genome_analyzer, hb, hb2]

/-- Counterexample to claim C7 as stated: not every artifact is published
via write-to-temporary-then-atomic-rename.  In the successful run trace
the compressed output `ns.gff.gz` is opened for writing directly under
its final name (`gzip.open`, line 268) and no temp-to-final rename for
it ever occurs. -/
theorem artifact_direct_write_counterexample :
    genome_analyzer false (Except.ok "b36") true = successTrace ∧
    (successTrace.contains (JEv.openFinalWrite "ns.gff.gz"),
      successTrace.contains (JEv.mvTmpToFinal "ns.gff.gz")) =
      (true, false) := by decide

/-- Claim C7 (amended): only the curated-evidence artifact
`get-evidence.json` is published via write-to-temporary-path followed by
a rename into its final name; that rename occurs exactly on successful
runs, and in the successful trace it comes only after the final stage's
output stream has been fully drained (after the compressed output is
closed); the other artifacts are written directly under their final
names. -/
theorem only_getev_temp_renamed (lockedByOther : Bool)
    (sourceBuild : Except String String) (stageChainOk : Bool) :
    (JEv.mvTmpToFinal "get-evidence.json" ∈
        genome_analyzer lockedByOther sourceBuild stageChainOk ↔
      lockedByOther = false ∧
        (sourceBuild = Except.ok "b36" ∨ sourceBuild = Except.ok "b37") ∧
        stageChainOk = true) ∧
    (genome_analyzer lockedByOther sourceBuild stageChainOk).all mvOnlyGetev = true ∧
    successTrace.indexOf (JEv.closeArtifact "ns.gff.gz") <
      successTrace.indexOf (JEv.mvTmpToFinal "get-evidence.json") := by
  refine ⟨?_, ?_, by decide⟩
  · cases lockedByOther with
    | true => simp [genome_analyzer]
    | false =>
      cases sourceBuild with
      | error e => simp [genome_analyzer]
      | ok b =>
        by_cases hb : b = "b36"
        · cases stageChainOk <;> simp [genome_analyzer, hb]
        · by_cases hb2 : b = "b37"
          · cases stageChainOk <;> simp [genome_analyzer, hb, hb2]
          · simp [genome_analyzer, hb, hb2]
  · cases lockedByOther with
    | true => rfl
    | false =>
      cases sourceBuild with
      | error e => simp [genome_analyzer, mvOnlyGetev]
      | ok b =>
        by_cases hb : b = "b36"
        · cases stageChainOk <;> simp [genome_analyzer, hb, mvOnlyGetev]
        · by_cases hb2 : b = "b37"
          · cases stageChainOk <;> simp [genome_analyzer, hb, hb2, mvOnlyGetev]
          · simp [genome_analyzer, hb, hb2, mvOnlyGetev]

end GenomeAnalyzer
